import Mathlib

/-!
Verification development for the `sx127x_ahsm` LoRa radio driver and its
physical-layer state machine.

The embedding follows `src/sx127x_ahsm/phy_sx127x_spi.py` (register driver)
and `src/sx127x_ahsm/phy_sx127x_ahsm.py` (protocol state machine).

Modelling conventions:
- The SPI device is a register file `regs : Nat → Nat` plus a FIFO buffer
  `fifo : Nat → Nat`; a multi-byte read of `n` bytes at address `a` returns
  registers `a, a+1, ..., a+n-1` (reads at `REG_FIFO` stream from the FIFO
  buffer starting at the FIFO pointer, as the chip does).
- Every bus write is also appended to a `writes` log `(address, bytes)` so
  theorems can speak about exactly what was written.
- Python runtime failures (a `TypeError` from applying a bitwise operator to
  a list, a failing `assert`) are modelled with `Except PyErr`.
- Python floats are modelled as exact rationals `ℚ`; `round` is the
  Mathlib `round` (the half-point tie direction is irrelevant to every bound
  proved below, which only uses `|round x - x| ≤ 1/2`).
-/

set_option linter.unusedVariables false

set_option maxRecDepth 100000

-- Register addresses (phy_sx127x_spi.py lines 28-53)

def REG_FIFO : Nat := 0x00

def REG_OP_MODE : Nat := 0x01

def REG_CARRIER_FREQ : Nat := 0x06

def REG_PA_CFG : Nat := 0x09

def REG_FIFO_PTR : Nat := 0x0D

def REG_FIFO_TX_BASE_PTR : Nat := 0x0E

def REG_FIFO_RX_BASE_PTR : Nat := 0x0F

def REG_RX_CURRENT_ADDR : Nat := 0x10

def REG_IRQ_MASK : Nat := 0x11

def REG_IRQ_FLAGS : Nat := 0x12

def REG_RX_NUM_BYTES : Nat := 0x13

def REG_PKT_SNR : Nat := 0x19

def REG_PKT_RSSI : Nat := 0x1A

def REG_MODEM_CFG_1 : Nat := 0x1D

def REG_MODEM_CFG_2 : Nat := 0x1E

def REG_PREAMBLE_LEN : Nat := 0x20

def REG_PAYLD_LEN : Nat := 0x22

def REG_MODEM_CFG_3 : Nat := 0x26

def REG_SYNC_WORD : Nat := 0x39

def REG_DIO_MAPPING1 : Nat := 0x40

def REG_DIO_MAPPING2 : Nat := 0x41

def REG_VERSION : Nat := 0x42

-- IRQ flag bit masks (phy_sx127x_spi.py lines 56-63)

def IRQFLAGS_RXTIMEOUT_MASK : Nat := 0x80

def IRQFLAGS_RXDONE_MASK : Nat := 0x40

def IRQFLAGS_PAYLOADCRCERROR_MASK : Nat := 0x20

def IRQFLAGS_VALIDHEADER_MASK : Nat := 0x10

def IRQFLAGS_TXDONE_MASK : Nat := 0x08

def IRQFLAGS_CADDONE_MASK : Nat := 0x04

def IRQFLAGS_FHSSCHANGEDCHANNEL_MASK : Nat := 0x02

def IRQFLAGS_CADDETECTED_MASK : Nat := 0x01

/-- Python runtime errors that the embedded driver code can raise. -/
inductive PyErr
  | typeError
  | assertionError
deriving DecidableEq, Repr

/-- State of one `SX127xSpi` driver instance together with its device.
`regs` and `fifo` model the chip; `writes` logs every bus write
`(register address, bytes written)`; `dio_mapping` is the driver's cached
DIO map (`None` until `get_dio` or `set_dio_mapping` has populated it,
mirroring the `hasattr(self, "dio_mapping")` check); `bandwidth_idx` is the
cached bandwidth index stored by `set_config`. -/
structure SpiState where
  regs : Nat → Nat
  fifo : Nat → Nat
  writes : List (Nat × List Nat)
  dio_mapping : Option (List Nat)
  bandwidth_idx : Option Nat

/-- Pointwise update of a register file. -/
def regUpd (f : Nat → Nat) (a v : Nat) : Nat → Nat :=
  fun x => if x = a then v else f x

/-- Store a list of bytes at consecutive addresses starting at `a`. -/
def regUpdList (f : Nat → Nat) (a : Nat) : List Nat → (Nat → Nat)
  | [] => f
  | v :: vs => regUpdList (regUpd f a v) (a + 1) vs

/-- Embedding of `SX127xSpi._read` (phy_sx127x_spi.py lines 108-116): reads
`nbytes` bytes starting at `reg_addr` and returns them as a list. Reads at
`REG_FIFO` stream from the FIFO buffer at the current FIFO pointer (device
behavior); all other addresses read consecutive registers. -/
def spi_read (st : SpiState) (reg_addr nbytes : Nat) : List Nat :=
  if reg_addr = REG_FIFO then
    (List.range nbytes).map (fun i => st.fifo (st.regs REG_FIFO_PTR + i))
  else
    (List.range nbytes).map (fun i => st.regs (reg_addr + i))

/-- Embedding of `SX127xSpi._write` with a byte-list argument
(phy_sx127x_spi.py lines 119-136, sequence branch): the bytes are sent
unmodified. The bus sets the MSb of the address on the wire; the log records
the plain register address. Writes at `REG_FIFO` land in the FIFO buffer at
the current FIFO pointer. -/
def spi_write_bytes (st : SpiState) (reg_addr : Nat) (data : List Nat) : SpiState :=
  if reg_addr = REG_FIFO then
    { st with fifo := regUpdList st.fifo (st.regs REG_FIFO_PTR) data,
              writes := st.writes ++ [(reg_addr, data)] }
  else
    { st with regs := regUpdList st.regs reg_addr data,
              writes := st.writes ++ [(reg_addr, data)] }

/-- Embedding of `SX127xSpi._write` with an integer argument
(phy_sx127x_spi.py lines 119-136, int branch): the source performs
`data &= 0xff`, which for a Python integer (possibly negative, as produced
by `enable_lora_irqs`) equals the value modulo 256. -/
def spi_write_int (st : SpiState) (reg_addr : Nat) (data : Int) : SpiState :=
  spi_write_bytes st reg_addr [(data % 256).toNat]

/-- Mode lookup tuple used by `get_op_mode` (phy_sx127x_spi.py line 175). -/
def get_op_mode_lut : List String :=
  ["sleep", "stdby", "fstx", "tx", "fsrx", "rxcont", "rx", "cad"]

/-- Embedding of `SX127xSpi.get_op_mode` (phy_sx127x_spi.py lines 171-178):
reads the op-mode register and returns the name of its low 3-bit field. -/
def get_op_mode (st : SpiState) : String :=
  get_op_mode_lut.getD ((spi_read st REG_OP_MODE 1).getD 0 0 &&& 0b111) ""

/-- Mode lookup dict used by `set_op_mode` (phy_sx127x_spi.py lines 501-510). -/
def set_op_mode_lut : List (String × Nat) :=
  [("sleep", 0b000), ("stdby", 0b001), ("standby", 0b001), ("fstx", 0b010),
   ("tx", 0b011), ("fsrx", 0b100), ("rxcont", 0b101), ("rx", 0b110),
   ("rxonce", 0b110), ("cad", 0b111)]

/-- Embedding of `SX127xSpi.set_op_mode` (phy_sx127x_spi.py lines 496-517).
After the mode-name assertion, the source executes
`d = self._read(REG_OP_MODE)` — `_read` returns a LIST of bytes — and then
`d &= 0b11111000`, a bitwise operator applied to a Python list, which raises
`TypeError` unconditionally. (Were that repaired, the final statement
`self._write(REG_OP_MODE)` omits the mandatory `data` argument and would
itself raise `TypeError`, so the computed value is never written either
way.) -/
def set_op_mode (st : SpiState) (mode : String) : Except PyErr SpiState :=
  if (set_op_mode_lut.lookup mode).isSome then
    let d : List Nat := spi_read st REG_OP_MODE 1
    Except.error PyErr.typeError
  else
    Except.error PyErr.assertionError

/-- Python truthiness of the optional `irq_bits` argument: `None` and `0`
are both falsy (`if irq_bits:`). -/
def py_truthy : Option Nat → Bool
  | some b => b ≠ 0
  | none => false

/-- Embedding of `SX127xSpi.clear_lora_irqs` (phy_sx127x_spi.py lines
294-304): writes the given bits to the IRQ-flags register, or `0xFF` when
the argument is absent or falsy. -/
def clear_lora_irqs (st : SpiState) (irq_bits : Option Nat) : SpiState :=
  let d : Int := if py_truthy irq_bits then (irq_bits.getD 0 : Int) else 0xFF
  spi_write_int st REG_IRQ_FLAGS d

/-- Embedding of `SX127xSpi.enable_lora_irqs` (phy_sx127x_spi.py lines
307-318): writes `~irq_bits` (Python bitwise complement, `-(b+1)`) to the
IRQ-mask register, or `0x00` when the argument is absent or falsy. -/
def enable_lora_irqs (st : SpiState) (irq_bits : Option Nat) : SpiState :=
  let d : Int := if py_truthy irq_bits then -((irq_bits.getD 0 : Int) + 1) else 0x00
  spi_write_int st REG_IRQ_MASK d

/-- Embedding of `SX127xSpi.disable_lora_irqs` (phy_sx127x_spi.py lines
321-333): writes the given bits to the IRQ-mask register, or `0xFF` when
the argument is absent or falsy. -/
def disable_lora_irqs (st : SpiState) (irq_bits : Option Nat) : SpiState :=
  let d : Int := if py_truthy irq_bits then (irq_bits.getD 0 : Int) else 0xFF
  spi_write_int st REG_IRQ_MASK d

/-- Embedding of `SX127xSpi.check_lora_rx_flags` (phy_sx127x_spi.py lines
336-354): reads the IRQ flags, masks them to the four receive-related bits,
writes that masked value back to acknowledge, and returns `true` iff RxDone
is set and neither RxTimeout nor PayloadCrcError is. -/
def check_lora_rx_flags (st : SpiState) : Bool × SpiState :=
  let flags := (spi_read st REG_IRQ_FLAGS 1).getD 0 0
  let flags := flags &&& (IRQFLAGS_RXTIMEOUT_MASK
                 ||| IRQFLAGS_RXDONE_MASK
                 ||| IRQFLAGS_PAYLOADCRCERROR_MASK
                 ||| IRQFLAGS_VALIDHEADER_MASK)
  let st1 := spi_write_int st REG_IRQ_FLAGS (flags : Int)
  let result := decide (flags &&& IRQFLAGS_RXDONE_MASK ≠ 0)
  let result := if flags &&& (IRQFLAGS_RXTIMEOUT_MASK
                 ||| IRQFLAGS_PAYLOADCRCERROR_MASK) ≠ 0 then false else result
  (result, st1)

/-- Embedding of `SX127xSpi.get_lora_rxd` (phy_sx127x_spi.py lines 357-382):
reads `(pkt_start, _, _, nbytes)` from `REG_RX_CURRENT_ADDR`, repositions
the FIFO pointer, reads the payload, then reads the SNR and RSSI registers
and converts `rssi = -157 + raw` and `snr = raw / 4.0` (the raw SNR byte is
divided as-is, with no signed reinterpretation). -/
def get_lora_rxd (st : SpiState) : (List Nat × Int × ℚ) × SpiState :=
  let r4 := spi_read st REG_RX_CURRENT_ADDR 4
  let pkt_start := r4.getD 0 0
  let nbytes := r4.getD 3 0
  let st1 := spi_write_int st REG_FIFO_PTR (pkt_start : Int)
  let payld := spi_read st1 REG_FIFO nbytes
  let sr := spi_read st1 REG_PKT_SNR 2
  let snr := sr.getD 0 0
  let rssi := sr.getD 1 0
  ((payld, -157 + (rssi : Int), (snr : ℚ) / 4), st1)

/-- Decoding of the two DIO mapping registers into the six 2-bit pin fields,
as performed by `SX127xSpi.get_dio` (phy_sx127x_spi.py lines 155-168):
DIO0 sits in the most-significant two bits of the first byte. -/
def dio_decode (map1 map2 : Nat) : List Nat :=
  [(map1 >>> 6) &&& 0b11, (map1 >>> 4) &&& 0b11, (map1 >>> 2) &&& 0b11,
   map1 &&& 0b11, (map2 >>> 6) &&& 0b11, (map2 >>> 4) &&& 0b11]

/-- Embedding of `SX127xSpi.get_dio` (phy_sx127x_spi.py lines 155-168):
reads the mapping register pair and caches the decoded six-pin sequence. -/
def get_dio (st : SpiState) : SpiState :=
  let m := spi_read st REG_DIO_MAPPING1 2
  { st with dio_mapping := some (dio_decode (m.getD 0 0) (m.getD 1 0)) }

/-- Embedding of `SX127xSpi.set_dio_mapping` (phy_sx127x_spi.py lines
189-217). The Python `dio<x>=<v>` keyword arguments are modelled as a list
of `(pin, value)` pairs (keyword keys are distinct; a list is strictly more
general). If the cache has never been populated it starts as six zeros.
Each pair is validated by the source's asserts (`pin` in 0..5, `value` in
0..3) and merged into the cached sequence, then the register pair is built
and written. -/
def set_dio_mapping (st : SpiState) (dio_args : List (Nat × Nat)) :
    Except PyErr SpiState :=
  let dio_seq0 : List Nat := st.dio_mapping.getD (List.replicate 6 0)
  let merged : Except PyErr (List Nat) :=
    dio_args.foldl
      (fun acc kv =>
        acc.bind (fun s =>
          if kv.1 < 6 ∧ kv.2 < 4 then Except.ok (s.set kv.1 kv.2)
          else Except.error PyErr.assertionError))
      (Except.ok dio_seq0)
  match merged with
  | Except.error e => Except.error e
  | Except.ok dio_seq =>
    let map_reg1 := ((dio_seq.getD 0 0) &&& 0x03) <<< 6
               ||| ((dio_seq.getD 1 0) &&& 0x03) <<< 4
               ||| ((dio_seq.getD 2 0) &&& 0x03) <<< 2
               ||| ((dio_seq.getD 3 0) &&& 0x03)
    let map_reg2 := ((dio_seq.getD 4 0) &&& 0x03) <<< 6
               ||| ((dio_seq.getD 5 0) &&& 0x03) <<< 4
    Except.ok { spi_write_bytes st REG_DIO_MAPPING1 [map_reg1, map_reg2] with
                dio_mapping := some dio_seq }

/-- Modelled from the spec: the `SX127xSettings` configuration value. Its
defining module `phy_sx127x_stngs.py` is not under `src/`; spec section 3
("RadioConfiguration") lists bandwidth index (0-9), coding-rate index,
spreading-factor index, implicit-header flag, symbol timeout (4-1023),
preamble length (0-65535), enable-CRC flag, enable-low-data-rate flag,
enable-AGC flag and a one-byte sync word. Field names follow their uses in
`SX127xSpi.set_config` (which also reads a `tx_cont` flag). -/
structure SX127xSettings where
  bandwidth_idx : Nat
  code_rate_idx : Nat
  spread_factor_idx : Nat
  implct_hdr_mode : Bool
  tx_cont : Bool
  en_crc : Bool
  symbol_count : Nat
  preamble_len : Nat
  en_ldr : Bool
  agc_auto : Bool
  sync_word : Nat

/-- Register-writing body of `SX127xSpi.set_config` (phy_sx127x_spi.py lines
417-444): the three contiguous modem-config registers, the preamble length
pair, the cfg3 register and the sync word, followed by the attempt to
restore the saved mode when it was not `sleep`. -/
def set_config_body (st : SpiState) (cfg : SX127xSettings) (mode_bkup : String) :
    Except PyErr SpiState :=
  let reg_cfg1 := cfg.bandwidth_idx <<< 4
             ||| cfg.code_rate_idx <<< 1
             ||| (if cfg.implct_hdr_mode then 1 else 0)
  let reg_cfg2 := cfg.spread_factor_idx <<< 4
             ||| (if cfg.tx_cont then 1 else 0) <<< 3
             ||| (if cfg.en_crc then 1 else 0) <<< 2
             ||| cfg.symbol_count >>> 8
  let reg_sym_to := cfg.symbol_count &&& 0xff
  let st := spi_write_bytes st REG_MODEM_CFG_1 [reg_cfg1, reg_cfg2, reg_sym_to]
  let st := spi_write_bytes st REG_PREAMBLE_LEN
              [cfg.preamble_len >>> 8, cfg.preamble_len &&& 0xff]
  let st := spi_write_int st REG_MODEM_CFG_3
              (((if cfg.en_ldr then 1 else 0) <<< 3
                ||| (if cfg.agc_auto then 1 else 0) <<< 2 : Nat) : Int)
  let st := spi_write_int st REG_SYNC_WORD (cfg.sync_word : Int)
  if mode_bkup ≠ "sleep" then set_op_mode st mode_bkup
  else Except.ok st

/-- Embedding of `SX127xSpi.set_config` (phy_sx127x_spi.py lines 402-444):
caches the bandwidth index, reads the current operating mode, transitions
to sleep when not already there (via `set_op_mode`, which raises — see
`set_op_mode`), writes the configuration registers, and finally attempts to
restore the saved mode. -/
def set_config (st : SpiState) (cfg : SX127xSettings) : Except PyErr SpiState :=
  let st := { st with bandwidth_idx := some cfg.bandwidth_idx }
  let mode_bkup := get_op_mode st
  if mode_bkup ≠ "sleep" then
    match set_op_mode st "sleep" with
    | Except.error e => Except.error e
    | Except.ok st1 => set_config_body st1 cfg mode_bkup
  else
    set_config_body st cfg mode_bkup

/-- Oscillator frequency constant `OSC_FREQ = 32e6` as an exact rational. -/
def OSC_FREQ : ℚ := 32000000

/-- Reciprocal oscillator frequency `INV_OSC_FREQ = 1.0 / OSC_FREQ`. -/
def INV_OSC_FREQ : ℚ := 1 / OSC_FREQ

/-- Rounded 24-bit register value computed by `SX127xSpi._write_freq`
(phy_sx127x_spi.py lines 486-493): `int(round((f + offset) * 2**19 *
INV_OSC_FREQ))`. -/
def write_freq_val (f offset : ℚ) : Int :=
  round ((f + offset) * 2 ^ 19 * INV_OSC_FREQ)

/-- Byte list produced by `SX127xSpi._write_freq`: the rounded value split
big-endian into three bytes. For the frequency range asserted by the
callers the rounded value is nonnegative, so `Int.toNat` is exact. -/
def write_freq_bytes (f offset : ℚ) : List Nat :=
  let freq := (write_freq_val f offset).toNat
  [(freq >>> 16) &&& 0xff, (freq >>> 8) &&& 0xff, freq &&& 0xff]

/-- Embedding of `SX127xSpi._write_freq` (phy_sx127x_spi.py lines 486-493):
writes the three frequency bytes to the carrier-frequency registers. -/
def write_freq (st : SpiState) (f offset : ℚ) : SpiState :=
  spi_write_bytes st REG_CARRIER_FREQ (write_freq_bytes f offset)

/-- Embedding of `SX127xSpi.set_tx_freq` (phy_sx127x_spi.py lines 477-483):
asserts `137e6 < freq < 1020e6` and writes the frequency with zero
offset. -/
def set_tx_freq (st : SpiState) (freq : ℚ) : Except PyErr SpiState :=
  if 137000000 < freq ∧ freq < 1020000000 then Except.ok (write_freq st freq 0)
  else Except.error PyErr.assertionError

/-- Embedding of `SX127xSpi.get_rf_freq` (phy_sx127x_spi.py lines 240-249):
reads the three frequency registers, recombines them big-endian and returns
`int(round(val * OSC_FREQ / 2**19))`. -/
def get_rf_freq (st : SpiState) : Int :=
  let b := spi_read st REG_CARRIER_FREQ 3
  let val := (b.getD 0 0) <<< 16 ||| (b.getD 1 0) <<< 8 ||| (b.getD 2 0)
  round ((val : ℚ) * OSC_FREQ / 2 ^ 19)

/-- Defined from the claim's words, for comparison with the code: the
two's-complement signed interpretation of one byte. -/
def twos_complement (b : Nat) : Int :=
  if b < 128 then (b : Int) else (b : Int) - 256

/-!
Embedding of the physical-layer state machine `SX127xSpiAhsm`
(phy_sx127x_ahsm.py). The hierarchical state machine is modelled at the
level of its handler code: each handler's calls into the `SX127xSpi` driver,
its published events, its timer operations and its blocking sleeps are
emitted as a trace of `Act` values (the internal behavior of each driver
call is the driver embedding's concern, settled separately). The farc/QP
dispatch rules are modelled directly: an unhandled signal is passed to the
parent state; a transition runs the exit handlers from the current leaf up
to (excluding) the least common ancestor of the handling state and the
target, then the entry handlers down to the target.
-/

/-- Maximum blocking sleep, `SX127xSpiAhsm.MAX_BLOCKING_TIME = 0.050`. -/
def MAX_BLOCKING_TIME : ℚ := 50 / 1000

/-- Transmit margin, `SX127xSpiAhsm.TX_MARGIN = 0.005`. -/
def TX_MARGIN : ℚ := 5 / 1000

/-- State names of `SX127xSpiAhsm` (phy_sx127x_ahsm.py). -/
inductive StName
  | top
  | initializing
  | idling
  | working
  | rxPrepping
  | listening
  | receiving
  | txPrepping
  | transmitting
deriving DecidableEq, Repr

/-- Driver operations requested by the state machine's handlers. -/
inductive SpiCall
  | disableIrqs
  | enableIrqs (mask : Nat)
  | clearIrqs (mask : Nat)
  | setDio (args : List (Nat × Nat))
  | setRxFifo (offset : Nat)
  | setRxFreq (freq : ℚ)
  | setFifoPtr
  | setTxData (data : List Nat)
  | setTxFreq (freq : ℚ)
  | setOpMode (mode : String)
  | checkRxFlags
  | getRxd
deriving DecidableEq, Repr

/-- Observable actions of one dispatch step: driver calls, published
events, timer-event operations, the self-posted `_ALWAYS` reminder and
blocking sleeps. -/
inductive Act
  | spi (c : SpiCall)
  | publishRxd (t : ℚ) (payld : List Nat) (rssi : Int) (snr : ℚ)
  | publishTxDone
  | timerPostIn (sec : ℚ)
  | timerDisarm
  | postAlways
  | blockingSleep (sec : ℚ)
deriving DecidableEq, Repr

/-- Extended state of the machine: the current (leaf) state and the
instance attributes assigned by the handlers. -/
structure Machine where
  state : StName
  hdr_time : ℚ
  rx_time : ℚ
  rx_freq : ℚ
  tx_time : ℚ
  tx_freq : ℚ
  tx_data : List Nat
deriving DecidableEq, Repr

/-- Environment of a dispatch step: the values returned by the driver calls
that return data, the event-loop clock, and the configured receive FIFO
base pointer (`dflt_modem_stngs["modulation_stngs"]["rx_base_ptr"]`). -/
structure Env where
  rx_flags_ok : Bool
  rxd_payld : List Nat
  rxd_rssi : Int
  rxd_snr : ℚ
  now : ℚ
  rx_base_ptr : Nat
deriving DecidableEq, Repr

/-- Dispatched events (signal plus `event.value`). DIO events carry the
timestamp captured by the GPIO bridge (phy_gpio_ahsm.py publishes the
capture time as the event value); `PHY_RECEIVE` carries `(time, freq)`;
`PHY_TRANSMIT` carries `(time, freq, data)`. -/
inductive Ev
  | dio0 (t : ℚ)
  | dio1 (t : ℚ)
  | dio3 (t : ℚ)
  | receive (t : ℚ) (freq : ℚ)
  | transmit (t : ℚ) (freq : ℚ) (data : List Nat)
  | stdby
  | spiTmout
  | always
deriving DecidableEq, Repr

/-- Parent state of each state, read off the `me.super(me, X)` call that
ends each handler (phy_sx127x_ahsm.py). -/
def parentOf : StName → StName
  | .top => .top
  | .initializing => .top
  | .idling => .top
  | .working => .top
  | .rxPrepping => .idling
  | .listening => .working
  | .receiving => .listening
  | .txPrepping => .idling
  | .transmitting => .working

/-- Ancestor chain of a state, the state itself first, up to `top`. -/
def ancestors : StName → List StName
  | .top => [.top]
  | .initializing => [.initializing, .top]
  | .idling => [.idling, .top]
  | .working => [.working, .top]
  | .rxPrepping => [.rxPrepping, .idling, .top]
  | .listening => [.listening, .working, .top]
  | .receiving => [.receiving, .listening, .working, .top]
  | .txPrepping => [.txPrepping, .idling, .top]
  | .transmitting => [.transmitting, .working, .top]

/-- Least common ancestor of two states. -/
def lca (a b : StName) : StName :=
  (((ancestors a).filter (fun s => (ancestors b).contains s)).headD .top)

/-- Result of running one state's handler on one event. -/
inductive HRes
  | handled (m : Machine) (acts : List Act)
  | tran (target : StName) (m : Machine) (acts : List Act)
  | toSuper

/-- Entry (`farc.Signal.ENTRY`) effects of each state, from the source
handlers, listed in statement order. States whose entry handler performs no
action (or merely `pass`es as `_receiving` does) contribute nothing.
Executing an emitted `setOpMode` request raises in the driver (see
`set_op_mode`) and in the source aborts the rest of the entry handler:
`_listening` resets `hdr_time` to 0 as its first statement, before its
raising `set_op_mode` call, and `_transmitting` would never reach
`me.tm_evt.postIn` after `set_op_mode("tx")`; the actions listed after a
`setOpMode` request are the source's subsequent statements, reached only if
that call returned. -/
def onEntry (s : StName) (m : Machine) (env : Env) : Machine × List Act :=
  match s with
  | .rxPrepping =>
      (m, [.spi .disableIrqs,
           .spi (.enableIrqs (IRQFLAGS_RXTIMEOUT_MASK
                  ||| IRQFLAGS_RXDONE_MASK
                  ||| IRQFLAGS_PAYLOADCRCERROR_MASK
                  ||| IRQFLAGS_VALIDHEADER_MASK)),
           .spi (.setDio [(0, 0), (1, 0), (3, 1)]),
           .spi (.setRxFifo env.rx_base_ptr),
           .spi (.setRxFreq m.rx_freq),
           .postAlways])
  | .listening =>
      ({ m with hdr_time := 0 },
       [.spi (.setOpMode (if m.rx_time < 0 then "rxcont" else "rxonce"))])
  | .txPrepping =>
      (m, [.spi .disableIrqs,
           .spi (.enableIrqs IRQFLAGS_TXDONE_MASK),
           .spi (.clearIrqs IRQFLAGS_TXDONE_MASK),
           .spi (.setDio [(0, 1)]),
           .spi .setFifoPtr,
           .spi (.setTxData m.tx_data),
           .spi (.setTxFreq m.tx_freq),
           .postAlways])
  | .transmitting =>
      (m, [.spi (.setOpMode "tx"), .timerPostIn 1])
  | _ => (m, [])

/-- Exit (`farc.Signal.EXIT`) effects of each state. `_transmitting`
disarms the safety timer and publishes `PHY_TX_DONE` on every exit
(phy_sx127x_ahsm.py lines 315-318); `_initializing` disarms its retry
timer. No other state defines an exit handler. -/
def onExit (s : StName) (m : Machine) : Machine × List Act :=
  match s with
  | .initializing => (m, [.timerDisarm])
  | .transmitting => (m, [.timerDisarm, .publishTxDone])
  | _ => (m, [])

/-- Handler bodies for the dispatched events, one equation per source
`elif` branch; any signal a state's code does not handle falls through to
`me.super` (`HRes.toSuper`). `_receiving` handles nothing effectively: its
`PHY_TRANSMIT` branch is `pass` followed by the `me.super` return, so the
event reaches `_listening`. This is a trace-level model: each branch emits
the source's driver calls as requests in statement order and records the
transition the source's `me.tran` names. Executing an emitted
`setOpMode` request raises in the driver (see `set_op_mode`), which in the
source aborts the handler before `me.tran` — so on the branches that call
`set_op_mode` (`_transmitting`/`_PHY_SPI_TMOUT`, `_working`/`PHY_STDBY`,
`_listening`/`PHY_TRANSMIT`) the actions and state change recorded after
that request describe the statements the source would run next but never
reaches; `transmitting_dispatch` above executes the driver call and
propagates the abort for the path where that exception is decisive. -/
def handle : StName → Machine → Env → Ev → HRes
  | .idling, m, _, .receive t f =>
      .tran .rxPrepping { m with rx_time := t, rx_freq := f } []
  | .idling, m, _, .transmit t f d =>
      .tran .txPrepping { m with tx_time := t, tx_freq := f, tx_data := d } []
  | .working, m, _, .stdby =>
      .tran .idling m [.spi (.setOpMode "stdby")]
  | .rxPrepping, m, env, .always =>
      let tiny_sleep := m.rx_time - env.now
      .tran .listening m
        (if 0 < m.rx_time ∧ 0 < tiny_sleep ∧ tiny_sleep < MAX_BLOCKING_TIME
         then [.blockingSleep tiny_sleep] else [])
  | .listening, m, env, .dio0 _ =>
      if env.rx_flags_ok then
        .tran .idling m
          [.spi .checkRxFlags, .spi .getRxd,
           .publishRxd m.hdr_time env.rxd_payld env.rxd_rssi env.rxd_snr]
      else
        .tran .idling m [.spi .checkRxFlags]
  | .listening, m, _, .dio1 _ =>
      .tran .idling m [.spi (.clearIrqs IRQFLAGS_RXTIMEOUT_MASK)]
  | .listening, m, _, .dio3 t =>
      .tran .receiving { m with hdr_time := t }
        [.spi (.clearIrqs IRQFLAGS_VALIDHEADER_MASK)]
  | .listening, m, _, .transmit t f d =>
      .tran .txPrepping { m with tx_time := t, tx_freq := f, tx_data := d }
        [.spi (.setOpMode "stdby")]
  | .txPrepping, m, env, .always =>
      let tiny_sleep := m.tx_time - env.now + TX_MARGIN
      .tran .transmitting m
        (if 0 < m.tx_time ∧ 0 < tiny_sleep
         then [.blockingSleep (min tiny_sleep MAX_BLOCKING_TIME)] else [])
  | .transmitting, m, _, .dio0 _ =>
      .tran .idling m []
  | .transmitting, m, _, .spiTmout =>
      .tran .idling m [.spi (.setOpMode "stdby")]
  | _, _, _, _ => .toSuper

/-- Exit-and-enter sequence of a state transition: exit handlers run from
the current leaf up to (excluding) the least common ancestor of the
handling state and the target, then entry handlers run down to the
target. -/
def applyTran (leaf hs target : StName) (m : Machine) (env : Env) :
    Machine × List Act :=
  let l := lca hs target
  let exits := (ancestors leaf).takeWhile (fun s => s ≠ l)
  let entries := ((ancestors target).takeWhile (fun s => s ≠ l)).reverse
  let p1 := exits.foldl
    (fun (p : Machine × List Act) s =>
      let q := onExit s p.1
      (q.1, p.2 ++ q.2)) (m, [])
  let p2 := entries.foldl
    (fun (p : Machine × List Act) s =>
      let q := onEntry s p.1 env
      (q.1, p.2 ++ q.2)) (p1.1, p1.2)
  ({ p2.1 with state := target }, p2.2)

/-- Walks the handler up the ancestor chain until one handles the event or
requests a transition. -/
def dispatchFrom (leaf : StName) (m : Machine) (env : Env) (e : Ev) :
    List StName → Machine × List Act
  | [] => (m, [])
  | s :: rest =>
    match handle s m env e with
    | .handled m1 acts => (m1, acts)
    | .tran t m1 acts =>
        let p := applyTran leaf s t m1 env
        (p.1, acts ++ p.2)
    | .toSuper => dispatchFrom leaf m env e rest

/-- One dispatch step of the state machine on one event. -/
def dispatch (m : Machine) (env : Env) (e : Ev) : Machine × List Act :=
  dispatchFrom m.state m env e (ancestors m.state)

/-- Received-packet events (`PHY_RXD_DATA`) contained in an action trace,
with their `(timestamp, payload, rssi, snr)` payloads. -/
def publishedRxd (acts : List Act) : List (ℚ × List Nat × Int × ℚ) :=
  acts.filterMap (fun a =>
    match a with
    | .publishRxd t p r s => some (t, p, r, s)
    | _ => none)

/-- Error-aware dispatch for one event in the `_transmitting` state
(phy_sx127x_ahsm.py lines 297-320), executed against the driver embedding.
In the source each handler runs its driver calls in statement order and an
uncaught Python exception aborts the handler before the `me.tran` call —
farc does not catch handler exceptions — so no transition is taken, no exit
handler runs and nothing is published. On `PHY_DIO0` (TxDone) the handler
transitions to `_idling` with no driver call, and the `_transmitting` exit
handler then disarms the timer and publishes `PHY_TX_DONE`. On
`_PHY_SPI_TMOUT` the handler first calls `set_op_mode("stdby")`, which
raises `TypeError` (see `set_op_mode`), so `me.tran` is never reached; the
same holds for the `PHY_STDBY` handler inherited from `_working`. Signals
the `_transmitting`/`_working`/top chain does not handle are ignored. -/
def transmitting_dispatch (m : Machine) (spi : SpiState) (e : Ev) :
    Except PyErr (Machine × SpiState × List Act) :=
  match e with
  | .dio0 _ =>
      Except.ok ({ m with state := .idling }, spi,
        [.timerDisarm, .publishTxDone])
  | .spiTmout =>
      match set_op_mode spi "stdby" with
      | Except.error err => Except.error err
      | Except.ok spi1 =>
          Except.ok ({ m with state := .idling }, spi1,
            [.timerDisarm, .publishTxDone])
  | .stdby =>
      match set_op_mode spi "stdby" with
      | Except.error err => Except.error err
      | Except.ok spi1 =>
          Except.ok ({ m with state := .idling }, spi1,
            [.timerDisarm, .publishTxDone])
  | _ => Except.ok (m, spi, [])

/-!
Sample concrete states used by witness and counterexample theorems.
-/

/-- A driver state with every register and FIFO cell zero and an empty
write log. -/
def stZero : SpiState :=
  { regs := fun _ => 0, fifo := fun _ => 0, writes := [], dio_mapping := none,
    bandwidth_idx := none }

/-- A driver state whose op-mode register holds 1 (`stdby`). -/
def stStdby : SpiState :=
  { regs := fun _ => 1, fifo := fun _ => 0, writes := [], dio_mapping := none,
    bandwidth_idx := none }

/-- A driver state whose IRQ-flags register holds exactly RxDone. -/
def stRxDone : SpiState :=
  { regs := fun a => if a = REG_IRQ_FLAGS then 0x40 else 0, fifo := fun _ => 0,
    writes := [], dio_mapping := none, bandwidth_idx := none }

/-- A driver state whose packet-SNR register holds the raw byte 255. -/
def stSnr255 : SpiState :=
  { regs := fun a => if a = REG_PKT_SNR then 255 else 0, fifo := fun _ => 0,
    writes := [], dio_mapping := none, bandwidth_idx := none }

/-- A sample configuration value. -/
def cfgEx : SX127xSettings :=
  { bandwidth_idx := 8, code_rate_idx := 1, spread_factor_idx := 7,
    implct_hdr_mode := false, tx_cont := false, en_crc := true,
    symbol_count := 255, preamble_len := 8, en_ldr := false, agc_auto := true,
    sync_word := 0x12 }

/-- C1: the spec says `set_op_mode` performs a read-modify-write preserving
the upper five bits; the code instead raises `TypeError` for every valid
mode name and every prior register value, because `_read` returns a list
and `d &= 0b11111000` applies a bitwise operator to that list (and the
final `self._write(REG_OP_MODE)` omits the data argument besides), so
nothing is ever written back. -/
theorem c1_set_op_mode_raises (st : SpiState) (mode : String)
    (h : (set_op_mode_lut.lookup mode).isSome = true) :
    set_op_mode st mode = Except.error PyErr.typeError := by
  simp [set_op_mode, h]

/-- Witness for C1 at the mode name `"stdby"` and an arbitrary register
state. -/
theorem c1_witness :
    (set_op_mode_lut.lookup "stdby").isSome = true
    ∧ set_op_mode stStdby "stdby" = Except.error PyErr.typeError :=
  ⟨by decide, c1_set_op_mode_raises stStdby "stdby" (by decide)⟩

/-- C4: the spec says `set_config` saves the operating mode, configures in
sleep mode and restores the saved mode; on the code, whenever the prior
mode is anything other than `sleep`, the very first `set_op_mode("sleep")`
call raises `TypeError` (see C1), so the chip is never put to sleep, no
configuration register is written and no mode is restored. -/
theorem c4_set_config_raises (st : SpiState) (cfg : SX127xSettings)
    (h : get_op_mode st ≠ "sleep") :
    set_config st cfg = Except.error PyErr.typeError := by
  have hmode : get_op_mode { st with bandwidth_idx := some cfg.bandwidth_idx }
      = get_op_mode st := rfl
  have hstep : set_op_mode { st with bandwidth_idx := some cfg.bandwidth_idx }
      "sleep" = Except.error PyErr.typeError :=
    c1_set_op_mode_raises _ _ (by decide)
  simp [set_config, hmode, h, hstep]

/-- Witness for C4 starting from `stdby` mode. -/
theorem c4_witness :
    get_op_mode stStdby ≠ "sleep"
    ∧ set_config stStdby cfgEx = Except.error PyErr.typeError :=
  ⟨by decide, c4_set_config_raises stStdby cfgEx (by decide)⟩

/-- C5: for every value of the IRQ-flags register, `check_lora_rx_flags`
returns true iff RxDone is set and neither RxTimeout nor PayloadCrcError
is set. -/
theorem c5_check_flags_iff (st : SpiState)
    (h : st.regs REG_IRQ_FLAGS < 256) :
    ((check_lora_rx_flags st).1 = true ↔
      (st.regs REG_IRQ_FLAGS &&& IRQFLAGS_RXDONE_MASK ≠ 0
        ∧ st.regs REG_IRQ_FLAGS &&& IRQFLAGS_RXTIMEOUT_MASK = 0
        ∧ st.regs REG_IRQ_FLAGS &&& IRQFLAGS_PAYLOADCRCERROR_MASK = 0)) := by
  have key : ∀ b < 256,
      (((if b &&& (IRQFLAGS_RXTIMEOUT_MASK ||| IRQFLAGS_RXDONE_MASK
            ||| IRQFLAGS_PAYLOADCRCERROR_MASK ||| IRQFLAGS_VALIDHEADER_MASK)
            &&& (IRQFLAGS_RXTIMEOUT_MASK ||| IRQFLAGS_PAYLOADCRCERROR_MASK) ≠ 0
          then false
          else decide (b &&& (IRQFLAGS_RXTIMEOUT_MASK ||| IRQFLAGS_RXDONE_MASK
            ||| IRQFLAGS_PAYLOADCRCERROR_MASK ||| IRQFLAGS_VALIDHEADER_MASK)
            &&& IRQFLAGS_RXDONE_MASK ≠ 0)) = true)
        ↔ (b &&& IRQFLAGS_RXDONE_MASK ≠ 0
            ∧ b &&& IRQFLAGS_RXTIMEOUT_MASK = 0
            ∧ b &&& IRQFLAGS_PAYLOADCRCERROR_MASK = 0)) := by decide
  exact key (st.regs REG_IRQ_FLAGS) h

/-- Witness for C5 at a state whose IRQ-flags register is exactly RxDone. -/
theorem c5_witness :
    stRxDone.regs REG_IRQ_FLAGS < 256
    ∧ ((check_lora_rx_flags stRxDone).1 = true ↔
        (stRxDone.regs REG_IRQ_FLAGS &&& IRQFLAGS_RXDONE_MASK ≠ 0
          ∧ stRxDone.regs REG_IRQ_FLAGS &&& IRQFLAGS_RXTIMEOUT_MASK = 0
          ∧ stRxDone.regs REG_IRQ_FLAGS &&& IRQFLAGS_PAYLOADCRCERROR_MASK = 0)) :=
  ⟨by decide, c5_check_flags_iff stRxDone (by decide)⟩

/-- C7 counterexample: the claim says the SNR byte is reinterpreted as a
two's-complement signed value before dividing by 4; the code divides the
raw unsigned byte. At raw SNR byte 255 the code returns `255/4 = 63.75`,
not `-1/4`. -/
theorem c7_counterexample :
    (get_lora_rxd stSnr255).1.2.2 = 255 / 4
    ∧ ((twos_complement 255 : ℚ) / 4 = -1 / 4)
    ∧ (get_lora_rxd stSnr255).1.2.2 ≠ (twos_complement 255 : ℚ) / 4 := by
  have e1 : (get_lora_rxd stSnr255).1.2.2 = ((255 : Nat) : ℚ) / 4 := rfl
  have e2 : twos_complement 255 = -1 := by decide
  refine ⟨?_, ?_, ?_⟩
  · rw [e1]; norm_num
  · rw [e2]; norm_num
  · rw [e1, e2]; norm_num

/-- C7 as amended: for every driver state, `get_lora_rxd` returns
`rssi = -157 + raw_rssi` and `snr = raw_snr / 4` where both raw bytes are
used unsigned (so for a raw SNR byte of 128 or more the returned SNR is
at least 32, never negative). -/
theorem c7_rssi_snr (st : SpiState) :
    (get_lora_rxd st).1.2.1 = -157 + (st.regs REG_PKT_RSSI : Int)
    ∧ (get_lora_rxd st).1.2.2 = (st.regs REG_PKT_SNR : ℚ) / 4 :=
  ⟨rfl, rfl⟩

/-- C8: passing the mask value 0 to `clear_lora_irqs`, `enable_lora_irqs`
or `disable_lora_irqs` is indistinguishable from passing no argument,
because `if irq_bits:` treats 0 and `None` alike: clear writes `0xFF` to
the IRQ-flags register, enable writes `0x00` to the mask register, disable
writes `0xFF` to the mask register. -/
theorem c8_zero_mask_is_default (st : SpiState) :
    clear_lora_irqs st (some 0) = clear_lora_irqs st none
    ∧ (clear_lora_irqs st (some 0)).writes
        = st.writes ++ [(REG_IRQ_FLAGS, [0xFF])]
    ∧ enable_lora_irqs st (some 0) = enable_lora_irqs st none
    ∧ (enable_lora_irqs st (some 0)).writes
        = st.writes ++ [(REG_IRQ_MASK, [0x00])]
    ∧ disable_lora_irqs st (some 0) = disable_lora_irqs st none
    ∧ (disable_lora_irqs st (some 0)).writes
        = st.writes ++ [(REG_IRQ_MASK, [0xFF])] :=
  ⟨rfl, rfl, rfl, rfl, rfl, rfl⟩

/-- C9: the acknowledge write performed by `check_lora_rx_flags` carries
exactly the receive-related bits that were read as set (RxTimeout, RxDone,
PayloadCrcError, ValidHeader) and always carries 0 in the TxDone, CadDone,
FhssChangedChannel and CadDetected positions, so those four flags are never
acknowledged by it. -/
theorem c9_ack_preserves_tx_flags (st : SpiState) :
    (check_lora_rx_flags st).2.writes
      = st.writes ++ [(REG_IRQ_FLAGS, [st.regs REG_IRQ_FLAGS &&& 0xF0])]
    ∧ (st.regs REG_IRQ_FLAGS &&& 0xF0) &&& IRQFLAGS_TXDONE_MASK = 0
    ∧ (st.regs REG_IRQ_FLAGS &&& 0xF0) &&& IRQFLAGS_CADDONE_MASK = 0
    ∧ (st.regs REG_IRQ_FLAGS &&& 0xF0) &&& IRQFLAGS_FHSSCHANGEDCHANNEL_MASK = 0
    ∧ (st.regs REG_IRQ_FLAGS &&& 0xF0) &&& IRQFLAGS_CADDETECTED_MASK = 0
    ∧ (st.regs REG_IRQ_FLAGS &&& 0xF0) &&& IRQFLAGS_RXTIMEOUT_MASK
        = st.regs REG_IRQ_FLAGS &&& IRQFLAGS_RXTIMEOUT_MASK
    ∧ (st.regs REG_IRQ_FLAGS &&& 0xF0) &&& IRQFLAGS_RXDONE_MASK
        = st.regs REG_IRQ_FLAGS &&& IRQFLAGS_RXDONE_MASK
    ∧ (st.regs REG_IRQ_FLAGS &&& 0xF0) &&& IRQFLAGS_PAYLOADCRCERROR_MASK
        = st.regs REG_IRQ_FLAGS &&& IRQFLAGS_PAYLOADCRCERROR_MASK
    ∧ (st.regs REG_IRQ_FLAGS &&& 0xF0) &&& IRQFLAGS_VALIDHEADER_MASK
        = st.regs REG_IRQ_FLAGS &&& IRQFLAGS_VALIDHEADER_MASK := by
  have hmask : ∀ k : Nat,
      (st.regs REG_IRQ_FLAGS &&& 0xF0) &&& k
        = st.regs REG_IRQ_FLAGS &&& (0xF0 &&& k) :=
    fun k => Nat.and_assoc _ _ _
  have hle : st.regs REG_IRQ_FLAGS &&& 0xF0 ≤ 0xF0 := Nat.and_le_right
  have hwrite : (((st.regs REG_IRQ_FLAGS &&& 0xF0 : Nat) : Int) % 256).toNat
      = st.regs REG_IRQ_FLAGS &&& 0xF0 := by
    omega
  refine ⟨?_, ?_, ?_, ?_, ?_, ?_, ?_, ?_, ?_⟩
  · show (spi_write_int st REG_IRQ_FLAGS _).writes = _
    simp only [spi_write_int, spi_write_bytes]
    rw [if_neg (by decide)]
    rw [show (spi_read st REG_IRQ_FLAGS 1).getD 0 0 = st.regs REG_IRQ_FLAGS
          from rfl]
    rw [show (IRQFLAGS_RXTIMEOUT_MASK ||| IRQFLAGS_RXDONE_MASK
          ||| IRQFLAGS_PAYLOADCRCERROR_MASK ||| IRQFLAGS_VALIDHEADER_MASK : Nat)
          = 0xF0 from rfl]
    rw [hwrite]
  · rw [hmask]
    rw [show (0xF0 &&& IRQFLAGS_TXDONE_MASK : Nat) = 0 from rfl, Nat.and_zero]
  · rw [hmask]
    rw [show (0xF0 &&& IRQFLAGS_CADDONE_MASK : Nat) = 0 from rfl, Nat.and_zero]
  · rw [hmask]
    rw [show (0xF0 &&& IRQFLAGS_FHSSCHANGEDCHANNEL_MASK : Nat) = 0 from rfl,
      Nat.and_zero]
  · rw [hmask]
    rw [show (0xF0 &&& IRQFLAGS_CADDETECTED_MASK : Nat) = 0 from rfl,
      Nat.and_zero]
  · rw [hmask]
    rw [show (0xF0 &&& IRQFLAGS_RXTIMEOUT_MASK : Nat)
          = IRQFLAGS_RXTIMEOUT_MASK from rfl]
  · rw [hmask]
    rw [show (0xF0 &&& IRQFLAGS_RXDONE_MASK : Nat)
          = IRQFLAGS_RXDONE_MASK from rfl]
  · rw [hmask]
    rw [show (0xF0 &&& IRQFLAGS_PAYLOADCRCERROR_MASK : Nat)
          = IRQFLAGS_PAYLOADCRCERROR_MASK from rfl]
  · rw [hmask]
    rw [show (0xF0 &&& IRQFLAGS_VALIDHEADER_MASK : Nat)
          = IRQFLAGS_VALIDHEADER_MASK from rfl]

/-- Merging valid `(pin, value)` pairs into a cached sequence succeeds and
leaves every position whose pin is not named unchanged (and preserves the
length). -/
lemma dio_merge_ok (args : List (Nat × Nat)) (s : List Nat) (p : Nat)
    (hargs : ∀ kv ∈ args, kv.1 < 6 ∧ kv.2 < 4)
    (hp : p ∉ args.map Prod.fst) :
    ∃ t : List Nat,
      args.foldl
        (fun acc kv =>
          acc.bind (fun s2 =>
            if kv.1 < 6 ∧ kv.2 < 4 then Except.ok (s2.set kv.1 kv.2)
            else Except.error PyErr.assertionError))
        (Except.ok s) = Except.ok t
      ∧ t.getD p 0 = s.getD p 0 ∧ t.length = s.length := by
  induction args generalizing s with
  | nil => exact ⟨s, rfl, rfl, rfl⟩
  | cons kv rest ih =>
    have hkv : kv.1 < 6 ∧ kv.2 < 4 := hargs kv (List.mem_cons_self _ _)
    have hpne : p ≠ kv.1 := by
      intro he
      exact hp (by simp [he])
    have hprest : p ∉ rest.map Prod.fst := by
      intro hm
      exact hp (by simp [hm])
    obtain ⟨t, h1, h2, h3⟩ := ih (s.set kv.1 kv.2)
      (fun x hx => hargs x (List.mem_cons_of_mem _ hx)) hprest
    refine ⟨t, ?_, ?_, ?_⟩
    · have hstep : (Except.ok s : Except PyErr (List Nat)).bind
          (fun s2 =>
            if kv.1 < 6 ∧ kv.2 < 4 then Except.ok (s2.set kv.1 kv.2)
            else Except.error PyErr.assertionError)
          = Except.ok (s.set kv.1 kv.2) := by
        simp [Except.bind, hkv]
      simp only [List.foldl_cons]
      rw [hstep]
      exact h1
    · rw [h2, List.getD_eq_getElem?_getD, List.getD_eq_getElem?_getD,
        List.getElem?_set_ne (Ne.symm hpne)]
    · rw [h3, List.length_set]

/-- Extraction of the four 2-bit fields packed into the first DIO mapping
register byte. -/
lemma pack_bits_reg1 (a b c d : Nat)
    (ha : a < 4) (hb : b < 4) (hc : c < 4) (hd : d < 4) :
    ((a <<< 6 ||| b <<< 4 ||| c <<< 2 ||| d) >>> 6) &&& 3 = a
    ∧ ((a <<< 6 ||| b <<< 4 ||| c <<< 2 ||| d) >>> 4) &&& 3 = b
    ∧ ((a <<< 6 ||| b <<< 4 ||| c <<< 2 ||| d) >>> 2) &&& 3 = c
    ∧ (a <<< 6 ||| b <<< 4 ||| c <<< 2 ||| d) &&& 3 = d := by
  have key : ∀ a < 4, ∀ b < 4, ∀ c < 4, ∀ d < 4,
      ((a <<< 6 ||| b <<< 4 ||| c <<< 2 ||| d) >>> 6) &&& 3 = a
      ∧ ((a <<< 6 ||| b <<< 4 ||| c <<< 2 ||| d) >>> 4) &&& 3 = b
      ∧ ((a <<< 6 ||| b <<< 4 ||| c <<< 2 ||| d) >>> 2) &&& 3 = c
      ∧ (a <<< 6 ||| b <<< 4 ||| c <<< 2 ||| d) &&& 3 = d := by decide
  exact key a ha b hb c hc d hd

/-- Extraction of the two 2-bit fields packed into the second DIO mapping
register byte. -/
lemma pack_bits_reg2 (a b : Nat) (ha : a < 4) (hb : b < 4) :
    ((a <<< 6 ||| b <<< 4) >>> 6) &&& 3 = a
    ∧ ((a <<< 6 ||| b <<< 4) >>> 4) &&& 3 = b := by
  have key : ∀ a < 4, ∀ b < 4,
      ((a <<< 6 ||| b <<< 4) >>> 6) &&& 3 = a
      ∧ ((a <<< 6 ||| b <<< 4) >>> 4) &&& 3 = b := by decide
  exact key a ha b hb

/-- C10: when `set_dio_mapping` runs before the cache has ever been read
from the device, the cache starts as six zeros, so the written register
pair encodes function 0 (as decoded by `get_dio`) for every pin not named
in the arguments. -/
theorem c10_fresh_cache_unnamed_zero (st : SpiState) (args : List (Nat × Nat))
    (p : Nat) (hc : st.dio_mapping = none)
    (hargs : ∀ kv ∈ args, kv.1 < 6 ∧ kv.2 < 4)
    (hp : p < 6) (hnm : p ∉ args.map Prod.fst) :
    ∃ st1 m1 m2, set_dio_mapping st args = Except.ok st1
      ∧ st1.writes = st.writes ++ [(REG_DIO_MAPPING1, [m1, m2])]
      ∧ (dio_decode m1 m2).getD p 0 = 0 := by
  obtain ⟨t, h1, h2, h3⟩ := dio_merge_ok args (List.replicate 6 0) p hargs hnm
  have h20 : t.getD p 0 = 0 := by
    rw [h2, List.getD_eq_getElem?_getD, List.getElem?_replicate]
    split <;> rfl
  have hfold : args.foldl
      (fun acc kv =>
        acc.bind (fun s2 =>
          if kv.1 < 6 ∧ kv.2 < 4 then Except.ok (s2.set kv.1 kv.2)
          else Except.error PyErr.assertionError))
      (Except.ok (st.dio_mapping.getD (List.replicate 6 0)))
      = Except.ok t := by
    rw [hc]
    exact h1
  refine ⟨{ spi_write_bytes st REG_DIO_MAPPING1
      [((t.getD 0 0) &&& 0x03) <<< 6 ||| ((t.getD 1 0) &&& 0x03) <<< 4
        ||| ((t.getD 2 0) &&& 0x03) <<< 2 ||| ((t.getD 3 0) &&& 0x03),
       ((t.getD 4 0) &&& 0x03) <<< 6 ||| ((t.getD 5 0) &&& 0x03) <<< 4]
      with dio_mapping := some t },
    ((t.getD 0 0) &&& 0x03) <<< 6 ||| ((t.getD 1 0) &&& 0x03) <<< 4
      ||| ((t.getD 2 0) &&& 0x03) <<< 2 ||| ((t.getD 3 0) &&& 0x03),
    ((t.getD 4 0) &&& 0x03) <<< 6 ||| ((t.getD 5 0) &&& 0x03) <<< 4,
    ?_, ?_, ?_⟩
  · simp only [set_dio_mapping]
    rw [hfold]
  · show (spi_write_bytes st REG_DIO_MAPPING1 _).writes = _
    simp only [spi_write_bytes]
    rw [if_neg (by decide)]
  · have b0 : t.getD 0 0 &&& 3 < 4 := Nat.lt_succ_of_le Nat.and_le_right
    have b1 : t.getD 1 0 &&& 3 < 4 := Nat.lt_succ_of_le Nat.and_le_right
    have b2 : t.getD 2 0 &&& 3 < 4 := Nat.lt_succ_of_le Nat.and_le_right
    have b3 : t.getD 3 0 &&& 3 < 4 := Nat.lt_succ_of_le Nat.and_le_right
    have b4 : t.getD 4 0 &&& 3 < 4 := Nat.lt_succ_of_le Nat.and_le_right
    have b5 : t.getD 5 0 &&& 3 < 4 := Nat.lt_succ_of_le Nat.and_le_right
    obtain ⟨e1, e2, e3, e4⟩ := pack_bits_reg1 _ _ _ _ b0 b1 b2 b3
    obtain ⟨e5, e6⟩ := pack_bits_reg2 _ _ b4 b5
    unfold dio_decode
    rw [e1, e2, e3, e4, e5, e6]
    interval_cases p <;>
      (simp only [List.getD_eq_getElem?_getD] at h20; simp [h20])

/-- Witness for C10: the receive-prep call `set_dio_mapping(dio0=0, dio1=0,
dio3=1)` on a fresh driver leaves pin 2 encoded as function 0. -/
theorem c10_witness :
    ∃ st1 m1 m2,
      set_dio_mapping stZero [(0, 0), (1, 0), (3, 1)] = Except.ok st1
      ∧ st1.writes = stZero.writes ++ [(REG_DIO_MAPPING1, [m1, m2])]
      ∧ (dio_decode m1 m2).getD 2 0 = 0 :=
  c10_fresh_cache_unnamed_zero stZero [(0, 0), (1, 0), (3, 1)] 2 rfl
    (by decide) (by decide) (by decide)

/-!
Sample machine states and environment for the state-machine theorems.
-/

/-- A machine in the `_listening` state with a recorded header time. -/
def mLis : Machine :=
  { state := .listening, hdr_time := 7, rx_time := -1, rx_freq := 9,
    tx_time := 0, tx_freq := 0, tx_data := [] }

/-- A machine in the `_rx_prepping` state with a stale header time. -/
def mRxp : Machine :=
  { state := .rxPrepping, hdr_time := 99, rx_time := -1, rx_freq := 9,
    tx_time := 0, tx_freq := 0, tx_data := [] }

/-- A sample environment: clean receive flags, a 2-byte payload. -/
def envEx : Env :=
  { rx_flags_ok := true, rxd_payld := [1, 2], rxd_rssi := -100,
    rxd_snr := 5 / 4, now := 0, rx_base_ptr := 0 }

/-- C2: the spec says the safety timeout is recovered locally by forcing
Standby and returning to Idling (publishing nothing); on the code, for
every machine and driver state, the timeout handler's first statement
`me.sx127x.set_op_mode("stdby")` raises `TypeError` (the slip proved under
C1) before `me.tran` is reached, so the chip is not forced to standby, the
machine never leaves `_transmitting`, and — the exit handler never
running — neither the timer disarm nor the `PHY_TX_DONE` publish happens:
the dispatch aborts with the uncaught exception. -/
theorem c2_tx_timeout_raises (m : Machine) (spi : SpiState) :
    transmitting_dispatch m spi .spiTmout = Except.error PyErr.typeError := rfl

/-- C3 counterexample: the claim says a receive that saw no ValidHeader
publishes the packet with the RxDone event's own timestamp; entering
`_listening` resets the header-time marker to 0 and the RxDone handler
publishes `me.hdr_time`, so the packet timestamp is 0, not the RxDone
event's time 8. -/
theorem c3_counterexample :
    publishedRxd (dispatch (dispatch mRxp envEx .always).1 envEx
        (.dio0 8)).2
      = [(0, [1, 2], -100, 5 / 4)]
    ∧ (0 : ℚ) ≠ 8 := by
  constructor
  · rfl
  · norm_num

/-- C3 as amended: a successful receive completion (RxDone with clean
flags) publishes exactly one received-packet event; its timestamp is the
ValidHeader interrupt's timestamp when one was seen during this receive,
and otherwise it is 0 (the marker value set on entering `_listening`), not
the RxDone event's own timestamp. -/
theorem c3_rx_publish (m : Machine) (env : Env) (t5 t8 : ℚ)
    (hok : env.rx_flags_ok = true) :
    (m.state = .listening →
        publishedRxd (dispatch m env (.dio0 t8)).2
          = [(m.hdr_time, env.rxd_payld, env.rxd_rssi, env.rxd_snr)]
      ∧ (dispatch m env (.dio0 t8)).1.state = .idling)
    ∧ (m.state = .listening →
        (dispatch m env (.dio3 t5)).1.state = .receiving
      ∧ (dispatch m env (.dio3 t5)).1.hdr_time = t5
      ∧ publishedRxd
          (dispatch (dispatch m env (.dio3 t5)).1 env (.dio0 t8)).2
          = [(t5, env.rxd_payld, env.rxd_rssi, env.rxd_snr)])
    ∧ (m.state = .rxPrepping →
        (dispatch m env .always).1.state = .listening
      ∧ (dispatch m env .always).1.hdr_time = 0) := by
  rcases m with ⟨s, ht, rt, rf, tt, tf, td⟩
  rcases env with ⟨fok, pl, rs, sn, tnow, rb⟩
  have hok2 : fok = true := hok
  subst hok2
  refine ⟨?_, ?_, ?_⟩
  · intro h
    have h2 : s = .listening := h
    subst h2
    exact ⟨rfl, rfl⟩
  · intro h
    have h2 : s = .listening := h
    subst h2
    exact ⟨rfl, rfl, rfl⟩
  · intro h
    have h2 : s = .rxPrepping := h
    subst h2
    exact ⟨rfl, rfl⟩

/-- Witness for C3: the spec's scenario (ValidHeader at t=5, RxDone at t=8
with clean flags publishes one packet stamped 5) plus the marker reset on
entry to `_listening`. -/
theorem c3_witness :
    (publishedRxd (dispatch mLis envEx (.dio0 8)).2
        = [(7, [1, 2], -100, 5 / 4)]
      ∧ (dispatch mLis envEx (.dio0 8)).1.state = .idling)
    ∧ ((dispatch mLis envEx (.dio3 5)).1.state = .receiving
      ∧ (dispatch mLis envEx (.dio3 5)).1.hdr_time = 5
      ∧ publishedRxd
          (dispatch (dispatch mLis envEx (.dio3 5)).1 envEx (.dio0 8)).2
          = [(5, [1, 2], -100, 5 / 4)])
    ∧ ((dispatch mRxp envEx .always).1.state = .listening
      ∧ (dispatch mRxp envEx .always).1.hdr_time = 0) :=
  ⟨(c3_rx_publish mLis envEx 5 8 rfl).1 rfl,
   (c3_rx_publish mLis envEx 5 8 rfl).2.1 rfl,
   (c3_rx_publish mRxp envEx 5 8 rfl).2.2 rfl⟩

/-- Splitting a 24-bit value into three bytes and recombining them
big-endian is the identity. -/
lemma byte_recombine {n : Nat} (h : n < 2 ^ 24) :
    ((n >>> 16) &&& 0xff) <<< 16 ||| ((n >>> 8) &&& 0xff) <<< 8
      ||| (n &&& 0xff) = n := by
  have e255 : (0xff : Nat) = 2 ^ 8 - 1 := by norm_num
  have e1 : (n >>> 16) &&& 0xff = n / 2 ^ 16 := by
    rw [Nat.shiftRight_eq_div_pow, e255, Nat.and_pow_two_sub_one_eq_mod]
    exact Nat.mod_eq_of_lt (by omega)
  have e2 : (n >>> 8) &&& 0xff = n / 2 ^ 8 % 2 ^ 8 := by
    rw [Nat.shiftRight_eq_div_pow, e255, Nat.and_pow_two_sub_one_eq_mod]
  have e3 : n &&& 0xff = n % 2 ^ 8 := by
    rw [e255, Nat.and_pow_two_sub_one_eq_mod]
  rw [e1, e2, e3, Nat.shiftLeft_eq, Nat.shiftLeft_eq]
  have hmid : n / 2 ^ 8 % 2 ^ 8 < 2 ^ 8 := Nat.mod_lt _ (by norm_num)
  have hlow : n % 2 ^ 8 < 2 ^ 8 := Nat.mod_lt _ (by norm_num)
  have k1 : n / 2 ^ 16 * 2 ^ 16 = 2 ^ 16 * (n / 2 ^ 16) := Nat.mul_comm _ _
  have k2 : n / 2 ^ 8 % 2 ^ 8 * 2 ^ 8 = 2 ^ 8 * (n / 2 ^ 8 % 2 ^ 8) :=
    Nat.mul_comm _ _
  rw [k1, k2]
  have s1 : 2 ^ 16 * (n / 2 ^ 16) ||| 2 ^ 8 * (n / 2 ^ 8 % 2 ^ 8)
      = 2 ^ 16 * (n / 2 ^ 16) + 2 ^ 8 * (n / 2 ^ 8 % 2 ^ 8) :=
    (Nat.mul_add_lt_is_or (by omega) _).symm
  rw [s1]
  have s2eq : 2 ^ 16 * (n / 2 ^ 16) + 2 ^ 8 * (n / 2 ^ 8 % 2 ^ 8)
      = 2 ^ 8 * (2 ^ 8 * (n / 2 ^ 16) + n / 2 ^ 8 % 2 ^ 8) := by ring
  rw [s2eq]
  have s2 : 2 ^ 8 * (2 ^ 8 * (n / 2 ^ 16) + n / 2 ^ 8 % 2 ^ 8) ||| n % 2 ^ 8
      = 2 ^ 8 * (2 ^ 8 * (n / 2 ^ 16) + n / 2 ^ 8 % 2 ^ 8) + n % 2 ^ 8 :=
    (Nat.mul_add_lt_is_or hlow _).symm
  rw [s2]
  omega

/-- Reading the three carrier-frequency registers immediately after
`_write_freq` returned the bytes just written. -/
lemma spi_read3_write3 (st : SpiState) (x y z : Nat) :
    spi_read (spi_write_bytes st REG_CARRIER_FREQ [x, y, z])
      REG_CARRIER_FREQ 3 = [x, y, z] := rfl

/-- Decoding the registers written by `_write_freq` recovers
`round(val * OSC_FREQ / 2^19)` at the written 24-bit value. -/
lemma get_rf_freq_write_freq (st : SpiState) (f offset : ℚ)
    (h : (write_freq_val f offset).toNat < 2 ^ 24) :
    get_rf_freq (write_freq st f offset)
      = round ((((write_freq_val f offset).toNat : ℕ) : ℚ)
          * OSC_FREQ / 2 ^ 19) := by
  have lhs_eq : get_rf_freq (write_freq st f offset)
      = round ((((((write_freq_val f offset).toNat >>> 16) &&& 0xff) <<< 16
          ||| (((write_freq_val f offset).toNat >>> 8) &&& 0xff) <<< 8
          ||| ((write_freq_val f offset).toNat &&& 0xff) : ℕ) : ℚ)
          * OSC_FREQ / 2 ^ 19) := rfl
  rw [lhs_eq, byte_recombine h]

/-- C6: encoding a frequency in the transmit-valid range to the 24-bit
register value and decoding it back yields a frequency within one encoding
step (`OSC_FREQ / 2^19`, about 61 Hz) of the original. -/
theorem c6_freq_roundtrip (st : SpiState) (f : ℚ)
    (h1 : 137000000 < f) (h2 : f < 1020000000) :
    |((get_rf_freq (write_freq st f 0) : ℤ) : ℚ) - f| ≤ OSC_FREQ / 2 ^ 19 := by
  set x : ℚ := (f + 0) * 2 ^ 19 * INV_OSC_FREQ with hxdef
  have hx : write_freq_val f 0 = round x := rfl
  have hxval : x = f * (524288 / 32000000) := by
    rw [hxdef]
    unfold INV_OSC_FREQ OSC_FREQ
    ring
  have hf : f = x * (32000000 / 524288) := by
    rw [hxval]
    ring
  have hr1 : |x - (round x : ℚ)| ≤ 1 / 2 := abs_sub_round x
  have habs1 := abs_le.mp hr1
  have hxlb : 2244608 < x := by
    rw [hxval]
    have hc : (0 : ℚ) < 524288 / 32000000 := by norm_num
    have := mul_lt_mul_of_pos_right h1 hc
    calc (2244608 : ℚ) = 137000000 * (524288 / 32000000) := by norm_num
    _ < f * (524288 / 32000000) := this
  have hxub : x < 16711680 := by
    rw [hxval]
    have hc : (0 : ℚ) < 524288 / 32000000 := by norm_num
    have := mul_lt_mul_of_pos_right h2 hc
    calc f * (524288 / 32000000) < 1020000000 * (524288 / 32000000) := this
    _ = 16711680 := by norm_num
  have hnlb : (2244608 : ℤ) ≤ round x := by
    by_contra hcon
    push_neg at hcon
    have hle : round x ≤ (2244607 : ℤ) := by omega
    have : ((round x : ℤ) : ℚ) ≤ 2244607 := by exact_mod_cast hle
    linarith [habs1.2]
  have hnub : round x ≤ (16711680 : ℤ) := by
    by_contra hcon
    push_neg at hcon
    have hge : (16711681 : ℤ) ≤ round x := by omega
    have : (16711681 : ℚ) ≤ ((round x : ℤ) : ℚ) := by exact_mod_cast hge
    linarith [habs1.1]
  have hn0 : (0 : ℤ) ≤ round x := le_trans (by norm_num) hnlb
  have htole : ((round x).toNat : ℤ) = round x := Int.toNat_of_nonneg hn0
  have h24 : (round x).toNat < 2 ^ 24 := by omega
  have hread := get_rf_freq_write_freq st f 0 (by rw [hx]; exact h24)
  rw [hx] at hread
  rw [hread]
  have hcast : (((round x).toNat : ℕ) : ℚ) = ((round x : ℤ) : ℚ) := by
    exact_mod_cast congrArg (fun z : ℤ => (z : ℚ)) htole
  rw [hcast]
  set y : ℚ := ((round x : ℤ) : ℚ) * OSC_FREQ / 2 ^ 19 with hydef
  have hr2 : |y - (round y : ℚ)| ≤ 1 / 2 := abs_sub_round y
  have habs2 := abs_le.mp hr2
  have hyf : y - f = ((round x : ℚ) - x) * (32000000 / 524288) := by
    rw [hydef]
    unfold OSC_FREQ
    rw [hf]
    ring
  have hstep : |y - f| ≤ (1 / 2) * (32000000 / 524288) := by
    rw [hyf, abs_mul, abs_of_pos (show (0 : ℚ) < 32000000 / 524288 by norm_num)]
    have : |(round x : ℚ) - x| ≤ 1 / 2 := by
      rw [abs_sub_comm]
      exact hr1
    have hc : (0 : ℚ) ≤ 32000000 / 524288 := by norm_num
    exact mul_le_mul_of_nonneg_right this hc
  have tri : |((round y : ℤ) : ℚ) - f| ≤ |((round y : ℤ) : ℚ) - y| + |y - f| :=
    abs_sub_le _ _ _
  have hrnd : |((round y : ℤ) : ℚ) - y| ≤ 1 / 2 := by
    rw [abs_sub_comm]
    exact hr2
  calc |((round y : ℤ) : ℚ) - f|
      ≤ |((round y : ℤ) : ℚ) - y| + |y - f| := tri
    _ ≤ 1 / 2 + (1 / 2) * (32000000 / 524288) := add_le_add hrnd hstep
    _ ≤ OSC_FREQ / 2 ^ 19 := by
        unfold OSC_FREQ
        norm_num

/-- Witness for C6 at 915 MHz. -/
theorem c6_witness :
    (137000000 : ℚ) < 915000000 ∧ (915000000 : ℚ) < 1020000000
    ∧ |((get_rf_freq (write_freq stZero 915000000 0) : ℤ) : ℚ) - 915000000|
        ≤ OSC_FREQ / 2 ^ 19 :=
  ⟨by norm_num, by norm_num,
   c6_freq_roundtrip stZero 915000000 (by norm_num) (by norm_num)⟩
